import Mathlib

/-!
Shallow embedding of the Cloudflare Worker proxy in `src/index.ts`.

The worker is one exported `fetch` handler plus one helper `handleRequest`.
Runtime values coming from JavaScript (header lookups, environment
variables, KV reads) are modelled as `Option String`, with JavaScript
truthiness made explicit; JavaScript numbers that can be `NaN` are
modelled as `Option Int` with `none` for `NaN`.  The KV namespace is
modelled as a read snapshot `String → Option String` together with a
trace of the `get` and `put` operations the handler performs.
-/

namespace HeliusProxy

/-! ### JavaScript primitives -/

/-- Truthiness of a JavaScript `string | null | undefined` value:
`null`, `undefined` and the empty string are falsy. -/
def jsTruthyStr : Option String → Bool
  | none => false
  | some s => !(s == "")

/-- The JavaScript idiom `v || d` on a `string | null` value. -/
def jsOrStr (v : Option String) (d : String) : String :=
  match v with
  | none => d
  | some s => if s == "" then d else s

/-- Value of a decimal digit character, if it is one. -/
def decDigit (c : Char) : Option Nat :=
  if 48 ≤ c.toNat ∧ c.toNat ≤ 57 then some (c.toNat - 48) else none

/-- Value of a hexadecimal digit character, if it is one. -/
def hexDigit (c : Char) : Option Nat :=
  if 48 ≤ c.toNat ∧ c.toNat ≤ 57 then some (c.toNat - 48)
  else if 97 ≤ c.toNat ∧ c.toNat ≤ 102 then some (c.toNat - 87)
  else if 65 ≤ c.toNat ∧ c.toNat ≤ 70 then some (c.toNat - 55)
  else none

/-- Accumulate the value of a maximal digit run. -/
def digitRun (dv : Char → Option Nat) (base : Nat) : List Char → Nat → Nat
  | [], acc => acc
  | c :: cs, acc =>
    match dv c with
    | some d => digitRun dv base cs (base * acc + d)
    | none => acc

/-- Parse the longest digit prefix; `none` when there is no digit at all. -/
def leadingDigits (dv : Char → Option Nat) (base : Nat) : List Char → Option Nat
  | [] => none
  | c :: cs =>
    match dv c with
    | some d => some (digitRun dv base cs d)
    | none => none

/-- Model of JavaScript `parseInt(s)` with no radix argument: skip leading
whitespace, read an optional sign, then either a `0x`/`0X` hexadecimal run
or a decimal run; `none` stands for `NaN` (no digit found). -/
def parseIntJS (s : String) : Option Int :=
  let cs := s.data.dropWhile Char.isWhitespace
  let signed : Bool × List Char :=
    match cs with
    | '-' :: rest => (true, rest)
    | '+' :: rest => (false, rest)
    | _ => (false, cs)
  let mag : Option Nat :=
    match signed.2 with
    | '0' :: x :: rest =>
      if x == 'x' || x == 'X' then leadingDigits hexDigit 16 rest
      else leadingDigits decDigit 10 ('0' :: x :: rest)
    | l => leadingDigits decDigit 10 l
  match mag with
  | none => none
  | some m => some (if signed.1 then -(m : Int) else (m : Int))

/-- The configuration idiom `parseInt(v) || d`: both `NaN` and `0` are
falsy, so they fall back to the default. -/
def parseIntOrDefault (v : Option String) (d : Int) : Int :=
  match v.bind parseIntJS with
  | none => d
  | some n => if n == 0 then d else n

/-- JavaScript `a >= b` where `a` may be `NaN`: any comparison with `NaN`
is false. -/
def jsGe : Option Int → Int → Bool
  | none, _ => false
  | some a, b => decide (b ≤ a)

/-- JavaScript `count += 1` on a number that may be `NaN`. -/
def jsSucc : Option Int → Option Int :=
  Option.map (· + 1)

/-- JavaScript `count.toString()` on a number that may be `NaN`. -/
def jsNumToString : Option Int → String
  | none => "NaN"
  | some n => toString n

/-! ### Environment and request -/

/-- The worker environment (`interface Env`).  The KV namespace binding is
modelled separately as a read snapshot passed to the handler.  Environment
variables may be absent at runtime, hence `Option String`. -/
structure Env where
  CORS_ALLOW_ORIGIN : Option String
  HELIUS_API_KEY : String
  RATE_LIMIT_MAX_REQUESTS : Option String
  RATE_LIMIT_TIME_WINDOW : Option String
  WHITELISTED_IPS : Option String
deriving DecidableEq

/-- The inbound request, with the fields the worker actually consumes:
`new URL(request.url)` projections, the three header lookups, the method
and the body text. -/
structure Request where
  method : String
  pathname : String
  search : String
  clusterParam : Option String
  originHeader : Option String
  cfConnectingIP : Option String
  upgradeHeader : Option String
  bodyText : String
deriving DecidableEq

/-! ### CORS computation (lines 13-40) -/

/-- The CORS headers record built by the handler: the two fixed entries
plus the conditionally added `Access-Control-Allow-Origin`. -/
structure CorsHeaders where
  allowMethods : String
  allowHeaders : String
  allowOrigin : Option String
deriving DecidableEq

/-- A character matched by the character class `[a-zA-Z0-9-]` that the
code substitutes for `*` in an origin pattern. -/
def isSubdomainChar (c : Char) : Bool :=
  c.isAlphanum || c == '-'

/-- Matcher for the regular expression the code builds from a domain
pattern: every character is matched literally (dots are escaped) except
`*`, which becomes `[a-zA-Z0-9-]+`; the regex is anchored `^...$`, so the
match is full-string. -/
def domainMatch : List Char → List Char → Bool
  | [], [] => true
  | [], _ :: _ => false
  | '*' :: _, [] => false
  | '*' :: ps, o :: os =>
    isSubdomainChar o && (domainMatch ps os || domainMatch ('*' :: ps) os)
  | _ :: _, [] => false
  | p :: ps, o :: os => p == o && domainMatch ps os

/-- Test of the regex built from `domain` against `origin`. -/
def originMatches (domain origin : String) : Bool :=
  domainMatch domain.data origin.data

/-- Splitting accumulator for `jsSplitComma`. -/
def splitCommaAux : List Char → List Char → List String
  | [], acc => [String.mk acc.reverse]
  | c :: cs, acc =>
    if c == ',' then String.mk acc.reverse :: splitCommaAux cs []
    else splitCommaAux cs (c :: acc)

/-- Model of JavaScript `s.split(',')`: comma-separated fields, with the
empty string splitting to `[""]`. -/
def jsSplitComma (s : String) : List String :=
  splitCommaAux s.data []

/-- Line 13: the comma-split pattern list when the variable is truthy,
absent otherwise. -/
def supportedDomainsOf (env : Env) : Option (List String) :=
  if jsTruthyStr env.CORS_ALLOW_ORIGIN then
    some (jsSplitComma (env.CORS_ALLOW_ORIGIN.getD ""))
  else none

/-- Lines 13-40: build the CORS headers from the configured pattern list
and the `Origin` header. -/
def computeCorsHeaders (env : Env) (originHeader : Option String) : CorsHeaders :=
  let base : CorsHeaders :=
    { allowMethods := "GET, HEAD, POST, PUT, OPTIONS"
      allowHeaders := "*"
      allowOrigin := none }
  match supportedDomainsOf env with
  | some domains =>
    if jsTruthyStr originHeader then
      let origin := originHeader.getD ""
      if domains.any (fun d => originMatches d origin) then
        { base with allowOrigin := some origin }
      else base
    else base
  | none => { base with allowOrigin := some "*" }

/-! ### Dispatcher (`handleRequest`, lines 83-110) -/

/-- Line 85: the cluster query parameter, defaulting to mainnet when
absent or empty. -/
def clusterOf (req : Request) : String :=
  jsOrStr req.clusterParam "mainnet"

/-- Host selection of line 95: root path goes to the cluster host, any
other path goes to the fixed secondary API host. -/
def upstreamHost (pathname cluster : String) : String :=
  if pathname == "/" then cluster ++ ".helius-rpc.com" else "api.helius.xyz"

/-- Line 95: the inbound query string re-appended after the credential,
with its leading question mark replaced by an ampersand. -/
def searchSuffix (search : String) : String :=
  if search == "" then "" else "&" ++ search.drop 1

/-- The outbound URL of line 95. -/
def proxyUrl (req : Request) (env : Env) : String :=
  "https://" ++ upstreamHost req.pathname (clusterOf req) ++ req.pathname
    ++ "?api-key=" ++ env.HELIUS_API_KEY ++ searchSuffix req.search

/-- The WebSocket passthrough URL of line 90. -/
def wsUrl (cluster apiKey : String) : String :=
  "https://" ++ cluster ++ ".helius-rpc.com/?api-key=" ++ apiKey

/-- Line 97: an empty body text becomes a null body. -/
def jsBody (payload : String) : Option String :=
  if payload == "" then none else some payload

/-- The outbound request issued by `handleRequest`: either the raw
passthrough `fetch(url, request)` of line 90, or the rebuilt proxy
request of lines 95-102 whose headers are fixed to
`Content-Type: application/json` and `X-Helius-Cloudflare-Proxy: true`. -/
inductive Dispatch where
  | websocket (url : String) (original : Request)
  | proxied (url : String) (method : String) (body : Option String)
deriving DecidableEq

/-- Lines 83-102 of `handleRequest`: upgrade passthrough or proxy
request construction. -/
def handleRequest (req : Request) (env : Env) : Dispatch :=
  let cluster := clusterOf req
  if jsTruthyStr req.upgradeHeader || req.upgradeHeader == some "websocket" then
    .websocket (wsUrl cluster env.HELIUS_API_KEY) req
  else
    .proxied (proxyUrl req env) req.method (jsBody req.bodyText)

/-- An upstream HTTP response as seen by the `.then` callback. -/
structure UpstreamResponse where
  status : Nat
  headers : List (String × String)
  body : String
deriving DecidableEq

/-- The response the worker relays to the client for a proxied request. -/
structure RelayedResponse where
  status : Nat
  body : String
  headers : CorsHeaders
deriving DecidableEq

/-- Lines 104-109: `new Response(res.body, { status: res.status,
headers: corsHeaders })`. -/
def relayResponse (res : UpstreamResponse) (cors : CorsHeaders) : RelayedResponse :=
  { status := res.status, body := res.body, headers := cors }

/-! ### Rate limiter and main handler (lines 11-80) -/

/-- Line 54: the comma-split allow-list, empty when the variable is
falsy. -/
def whitelistedIpsOf (env : Env) : List String :=
  if jsTruthyStr env.WHITELISTED_IPS then jsSplitComma (env.WHITELISTED_IPS.getD "")
  else []

/-- Line 51: the CF-Connecting-IP header, with the sentinel value
unknown when absent or empty. -/
def clientIdentifierOf (req : Request) : String :=
  jsOrStr req.cfConnectingIP "unknown"

/-- Line 60: the configured max requests per window, defaulting to 50. -/
def maxRequestsOf (env : Env) : Int :=
  parseIntOrDefault env.RATE_LIMIT_MAX_REQUESTS 50

/-- Line 61: the configured window length in seconds, defaulting to 1. -/
def timeWindowOf (env : Env) : Int :=
  parseIntOrDefault env.RATE_LIMIT_TIME_WINDOW 1

/-- Line 62: floor division of the millisecond clock by the window
length in milliseconds. -/
def windowIndexOf (nowMs : Nat) (window : Int) : Int :=
  Int.fdiv (nowMs : Int) (window * 1000)

/-- The composite window key of line 63. -/
def windowKeyOf (client : String) (nowMs : Nat) (window : Int) : String :=
  client ++ ":" ++ toString (windowIndexOf nowMs window)

/-- Line 66: the stored count parsed when truthy, 0 when the key is
absent or empty; `none` is a `NaN` count. -/
def jsCount (stored : Option String) : Option Int :=
  if jsTruthyStr stored then parseIntJS (stored.getD "") else some 0

/-- One `put` issued against the KV namespace, with its TTL option. -/
structure StorePut where
  key : String
  value : String
  expirationTtl : Nat
deriving DecidableEq

/-- What the `fetch` handler resolves to: an own response, or a dispatch
through `handleRequest`. -/
inductive Outcome where
  | respond (status : Nat) (body : Option String) (headers : CorsHeaders)
  | dispatch (d : Dispatch) (cors : CorsHeaders)
deriving DecidableEq

/-- Result of one run of the `fetch` handler: outcome plus the trace of
KV reads and writes it performed. -/
structure FetchResult where
  outcome : Outcome
  storeGets : List String
  storePuts : List StorePut
deriving DecidableEq

/-- Lines 11-80, the exported `fetch` handler: CORS computation, OPTIONS
short-circuit, allow-list gate, then the windowed rate limiter, with the
KV namespace read through the snapshot `kv`. -/
def fetchHandler (req : Request) (env : Env) (nowMs : Nat)
    (kv : String → Option String) : FetchResult :=
  let corsHeaders := computeCorsHeaders env req.originHeader
  if req.method == "OPTIONS" then
    { outcome := .respond 200 none corsHeaders, storeGets := [], storePuts := [] }
  else
    let clientIdentifier := clientIdentifierOf req
    if (whitelistedIpsOf env).contains clientIdentifier then
      { outcome := .dispatch (handleRequest req env) corsHeaders
        storeGets := [], storePuts := [] }
    else
      let maxRequests := maxRequestsOf env
      let window := timeWindowOf env
      let windowKey := windowKeyOf clientIdentifier nowMs window
      let requestCount := kv windowKey
      let count := jsCount requestCount
      if jsGe count maxRequests then
        { outcome := .respond 429 (some "Rate limit exceeded") corsHeaders
          storeGets := [windowKey], storePuts := [] }
      else
        { outcome := .dispatch (handleRequest req env) corsHeaders
          storeGets := [windowKey]
          storePuts := [{ key := windowKey
                          value := jsNumToString (jsSucc count)
                          expirationTtl := 60 }] }

/-! ### Helper lemmas

Decimal digit strings: `Nat.repr` is injective, proved through the value
of the digit list it produces.  Used to show the window key determines
the window index. -/

/-- Value of a decimal digit character produced by `Nat.digitChar`. -/
def digitCharVal (c : Char) : Nat :=
  c.toNat - 48

/-- Left fold of digit characters into the number they denote. -/
def digitsVal : List Char → Nat → Nat
  | [], acc => acc
  | c :: cs, acc => digitsVal cs (10 * acc + digitCharVal c)

lemma digitCharVal_digitChar (m : Nat) (h : m < 10) :
    digitCharVal (Nat.digitChar m) = m := by
  interval_cases m <;> rfl

lemma digitsVal_toDigitsCore (fuel : Nat) : ∀ (n : Nat) (ds : List Char), n < fuel →
    digitsVal (Nat.toDigitsCore 10 fuel n ds) 0 = digitsVal ds n := by
  induction fuel with
  | zero => intro n ds h; omega
  | succ f ih =>
    intro n ds h
    by_cases h10 : n / 10 = 0
    · have hlt : n < 10 := by omega
      simp only [Nat.toDigitsCore, h10, if_pos]
      show digitsVal ds (10 * 0 + digitCharVal (Nat.digitChar (n % 10))) = digitsVal ds n
      rw [digitCharVal_digitChar _ (Nat.mod_lt _ (by norm_num))]
      congr 1
      omega
    · simp only [Nat.toDigitsCore, h10, if_neg, if_false]
      rw [ih (n / 10) (Nat.digitChar (n % 10) :: ds) (by omega)]
      show digitsVal ds (10 * (n / 10) + digitCharVal (Nat.digitChar (n % 10))) = digitsVal ds n
      rw [digitCharVal_digitChar _ (Nat.mod_lt _ (by norm_num))]
      congr 1
      omega

lemma digitsVal_repr (n : Nat) : digitsVal (Nat.repr n).data 0 = n := by
  have h := digitsVal_toDigitsCore (n + 1) n [] (Nat.lt_succ_self n)
  simpa [Nat.repr, Nat.toDigits, List.asString] using h

lemma nat_repr_inj {a b : Nat} (h : Nat.repr a = Nat.repr b) : a = b := by
  have ha := digitsVal_repr a
  rw [h, digitsVal_repr b] at ha
  omega

lemma toString_intCast (n : Nat) : toString ((n : Int)) = Nat.repr n := rfl

lemma toString_nat (n : Nat) : toString n = Nat.repr n := rfl

lemma string_append_left_cancel (a : String) {s t : String}
    (h : a ++ s = a ++ t) : s = t := by
  have hd := congrArg String.data h
  rw [String.data_append, String.data_append] at hd
  exact String.ext (List.append_cancel_left hd)

/-! ### Claim theorems -/

/-- C1: for every non-whitelisted, non-OPTIONS request, with M the
configured max requests per window: if the stored count for the window
key is at least M, the response is a 429 with body
`Rate limit exceeded` carrying the computed CORS headers and no store
write happens; otherwise the count (absent read as 0) is incremented by
exactly one, persisted under the same window key, and the request is
dispatched. -/
theorem rateLimit_reject_or_increment (req : Request) (env : Env) (nowMs : Nat)
    (kv : String → Option String)
    (hm : req.method ≠ "OPTIONS")
    (hw : (whitelistedIpsOf env).contains (clientIdentifierOf req) = false) :
    (jsGe (jsCount (kv (windowKeyOf (clientIdentifierOf req) nowMs (timeWindowOf env))))
        (maxRequestsOf env) = true →
      fetchHandler req env nowMs kv =
        { outcome := .respond 429 (some "Rate limit exceeded")
            (computeCorsHeaders env req.originHeader)
          storeGets := [windowKeyOf (clientIdentifierOf req) nowMs (timeWindowOf env)]
          storePuts := [] }) ∧
    (jsGe (jsCount (kv (windowKeyOf (clientIdentifierOf req) nowMs (timeWindowOf env))))
        (maxRequestsOf env) = false →
      fetchHandler req env nowMs kv =
        { outcome := .dispatch (handleRequest req env)
            (computeCorsHeaders env req.originHeader)
          storeGets := [windowKeyOf (clientIdentifierOf req) nowMs (timeWindowOf env)]
          storePuts := [{ key := windowKeyOf (clientIdentifierOf req) nowMs (timeWindowOf env)
                          value := jsNumToString (jsSucc (jsCount
                            (kv (windowKeyOf (clientIdentifierOf req) nowMs (timeWindowOf env)))))
                          expirationTtl := 60 }] }) := by
  have hw' : clientIdentifierOf req ∉ whitelistedIpsOf env := by simpa using hw
  constructor <;> intro hge <;> unfold fetchHandler <;> simp [hm, hw', hge]

/-- C1 witness: with default limits and a stored count of 50 the request
is rejected without a write. -/
theorem rateLimit_reject_or_increment_witness :
    fetchHandler ⟨"POST", "/", "", none, none, some "1.2.3.4", none, "payload"⟩
        ⟨none, "KEY", none, none, none⟩ 5000 (fun _ => some "50") =
      { outcome := .respond 429 (some "Rate limit exceeded")
          (computeCorsHeaders ⟨none, "KEY", none, none, none⟩ none)
        storeGets := ["1.2.3.4:5"]
        storePuts := [] } := by
  have h := (rateLimit_reject_or_increment
    ⟨"POST", "/", "", none, none, some "1.2.3.4", none, "payload"⟩
    ⟨none, "KEY", none, none, none⟩ 5000 (fun _ => some "50")
    (by decide) (by decide)).1 (by decide)
  simpa using h

/-- C2: for every request whose client identity is in the configured
allow-list, the rate limiter is skipped entirely — the counter store is
neither read nor written — and the response is never the 429 rate-limit
rejection, whatever the store contains. -/
theorem whitelist_bypasses_rate_limiter (req : Request) (env : Env) (nowMs : Nat)
    (kv : String → Option String)
    (h : (whitelistedIpsOf env).contains (clientIdentifierOf req) = true) :
    (fetchHandler req env nowMs kv).storeGets = [] ∧
    (fetchHandler req env nowMs kv).storePuts = [] ∧
    ∀ b hd, (fetchHandler req env nowMs kv).outcome ≠ Outcome.respond 429 b hd := by
  have h' : clientIdentifierOf req ∈ whitelistedIpsOf env := by simpa using h
  unfold fetchHandler
  by_cases hm : req.method == "OPTIONS" <;> simp [hm, h']

/-- C2 witness: a whitelisted client with a saturated counter is
dispatched with no store traffic. -/
theorem whitelist_bypasses_rate_limiter_witness :
    (fetchHandler ⟨"POST", "/", "", none, none, some "1.2.3.4", none, "payload"⟩
        ⟨none, "KEY", none, none, some "9.9.9.9,1.2.3.4"⟩ 5000 (fun _ => some "99")).storeGets = [] ∧
    (fetchHandler ⟨"POST", "/", "", none, none, some "1.2.3.4", none, "payload"⟩
        ⟨none, "KEY", none, none, some "9.9.9.9,1.2.3.4"⟩ 5000 (fun _ => some "99")).storePuts = [] ∧
    ∀ b hd, (fetchHandler ⟨"POST", "/", "", none, none, some "1.2.3.4", none, "payload"⟩
        ⟨none, "KEY", none, none, some "9.9.9.9,1.2.3.4"⟩ 5000 (fun _ => some "99")).outcome ≠
      Outcome.respond 429 b hd :=
  whitelist_bypasses_rate_limiter
    ⟨"POST", "/", "", none, none, some "1.2.3.4", none, "payload"⟩
    ⟨none, "KEY", none, none, some "9.9.9.9,1.2.3.4"⟩ 5000 (fun _ => some "99") (by decide)

lemma parseIntOrDefault_ne_zero (v : Option String) (d : Int) (hd : d ≠ 0) :
    parseIntOrDefault v d ≠ 0 := by
  unfold parseIntOrDefault
  rcases v.bind parseIntJS with _ | n
  · exact hd
  · dsimp only
    by_cases h : n = 0
    · simp [h, hd]
    · simp [h]

/-- C9: each rate-limit setting defaults independently: a missing or
non-numeric max-requests setting yields the positive default 50, a
missing or non-numeric window-length setting yields the positive
default 1 second, regardless of the other setting; and for every
configuration whatsoever, the resolved limit and window are never
zero. -/
theorem config_defaulting (env : Env) :
    (env.RATE_LIMIT_MAX_REQUESTS.bind parseIntJS = none →
      maxRequestsOf env = 50 ∧ (0 : Int) < maxRequestsOf env) ∧
    (env.RATE_LIMIT_TIME_WINDOW.bind parseIntJS = none →
      timeWindowOf env = 1 ∧ (0 : Int) < timeWindowOf env) ∧
    maxRequestsOf env ≠ 0 ∧ timeWindowOf env ≠ 0 := by
  refine ⟨fun hm => ?_, fun hw => ?_,
    parseIntOrDefault_ne_zero _ _ (by norm_num),
    parseIntOrDefault_ne_zero _ _ (by norm_num)⟩
  · have h1 : maxRequestsOf env = 50 := by
      unfold maxRequestsOf parseIntOrDefault
      rw [hm]
    exact ⟨h1, by rw [h1]; norm_num⟩
  · have h2 : timeWindowOf env = 1 := by
      unfold timeWindowOf parseIntOrDefault
      rw [hw]
    exact ⟨h2, by rw [h2]; norm_num⟩

/-- C9 witness: a mixed configuration — non-numeric max together with a
numeric window — defaults only the max, and neither resolved setting is
zero. -/
theorem config_defaulting_witness :
    maxRequestsOf ⟨none, "KEY", some "abc", some "5", none⟩ = 50 ∧
    (0 : Int) < maxRequestsOf ⟨none, "KEY", some "abc", some "5", none⟩ ∧
    timeWindowOf ⟨none, "KEY", some "abc", some "5", none⟩ ≠ 0 := by
  have h := config_defaulting ⟨none, "KEY", some "abc", some "5", none⟩
  exact ⟨(h.1 (by decide)).1, (h.1 (by decide)).2, h.2.2.2⟩

/-- C10: a configured max of the numeric string "-1" is parsed and used
as the limit with no default applying, so any non-whitelisted,
non-OPTIONS request whose stored count is absent or a nonnegative number
— in particular the very first request of a fresh window — is rejected
with 429. -/
theorem negative_max_rejects_all (req : Request) (env : Env) (nowMs : Nat)
    (kv : String → Option String) (c : Int)
    (hmax : env.RATE_LIMIT_MAX_REQUESTS = some "-1")
    (hm : req.method ≠ "OPTIONS")
    (hw : (whitelistedIpsOf env).contains (clientIdentifierOf req) = false)
    (hc : jsCount (kv (windowKeyOf (clientIdentifierOf req) nowMs (timeWindowOf env))) = some c)
    (hc0 : 0 ≤ c) :
    maxRequestsOf env = -1 ∧
    fetchHandler req env nowMs kv =
      { outcome := .respond 429 (some "Rate limit exceeded")
          (computeCorsHeaders env req.originHeader)
        storeGets := [windowKeyOf (clientIdentifierOf req) nowMs (timeWindowOf env)]
        storePuts := [] } := by
  have hmaxv : maxRequestsOf env = -1 := by
    unfold maxRequestsOf
    rw [hmax]
    decide
  have hge : jsGe (jsCount (kv (windowKeyOf (clientIdentifierOf req) nowMs (timeWindowOf env))))
      (maxRequestsOf env) = true := by
    rw [hc, hmaxv]
    simp only [jsGe, decide_eq_true_eq]
    omega
  have hw' : clientIdentifierOf req ∉ whitelistedIpsOf env := by simpa using hw
  refine ⟨hmaxv, ?_⟩
  unfold fetchHandler
  simp [hm, hw', hge]

/-- C10 witness: first request of a fresh window under max "-1" gets the
429 response. -/
theorem negative_max_rejects_all_witness :
    fetchHandler ⟨"POST", "/", "", none, none, some "1.2.3.4", none, "payload"⟩
        ⟨none, "KEY", some "-1", none, none⟩ 0 (fun _ => none) =
      { outcome := .respond 429 (some "Rate limit exceeded")
          (computeCorsHeaders ⟨none, "KEY", some "-1", none, none⟩ none)
        storeGets := ["1.2.3.4:0"]
        storePuts := [] } := by
  have h := (negative_max_rejects_all
    ⟨"POST", "/", "", none, none, some "1.2.3.4", none, "payload"⟩
    ⟨none, "KEY", some "-1", none, none⟩ 0 (fun _ => none) 0
    rfl (by decide) (by decide) (by decide) (by decide)).2
  simpa using h

/-- C3: for every positive configured window length W (seconds), the
window key is the client identity, a ":" separator, and the integer
floor of unix seconds over W; two times with the same floor value give
the same key, and the keys are equal exactly when the floors are. -/
theorem windowKey_floor_spec (client : String) (W : Nat) (_hW : 0 < W) :
    (∀ t : Nat, windowKeyOf client t (W : Int) =
        client ++ ":" ++ toString (t / 1000 / W)) ∧
    (∀ t₁ t₂ : Nat, windowKeyOf client t₁ (W : Int) = windowKeyOf client t₂ (W : Int) ↔
        t₁ / 1000 / W = t₂ / 1000 / W) := by
  have hkey : ∀ t : Nat, windowKeyOf client t (W : Int) =
      client ++ ":" ++ toString (t / 1000 / W) := by
    intro t
    unfold windowKeyOf windowIndexOf
    have hcast : ((W : Int) * 1000) = ((W * 1000 : Nat) : Int) := by push_cast; ring
    rw [hcast, ← Int.ofNat_fdiv]
    rw [toString_intCast, toString_nat, Nat.div_div_eq_div_mul, Nat.mul_comm 1000 W]
  refine ⟨hkey, fun t₁ t₂ => ⟨fun h => ?_, fun h => by rw [hkey t₁, hkey t₂, h]⟩⟩
  rw [hkey t₁, hkey t₂] at h
  have h₂ := string_append_left_cancel (client ++ ":") h
  rw [toString_nat, toString_nat] at h₂
  exact nat_repr_inj h₂

/-- C3 witness: with a 2 second window, millisecond time 61000 falls in
window 30 and times 61000 and 60000 share the key. -/
theorem windowKey_floor_spec_witness :
    windowKeyOf "1.2.3.4" 61000 ((2 : Nat) : Int) =
      "1.2.3.4" ++ ":" ++ toString (61000 / 1000 / 2) ∧
    (windowKeyOf "1.2.3.4" 61000 ((2 : Nat) : Int) =
        windowKeyOf "1.2.3.4" 60000 ((2 : Nat) : Int) ↔
      61000 / 1000 / 2 = 60000 / 1000 / 2) :=
  ⟨(windowKey_floor_spec "1.2.3.4" 2 (by norm_num)).1 61000,
    (windowKey_floor_spec "1.2.3.4" 2 (by norm_num)).2 61000 60000⟩

/-- C4 counterexample: the code matches the configured patterns against
the full `Origin` header value, scheme included, so the origin
`https://app.example.com` matches neither pattern `*.example.com` nor
`app.example.com`, and no `Access-Control-Allow-Origin` is echoed. -/
theorem cors_schemeless_pattern_cex :
    originMatches "*.example.com" "https://app.example.com" = false ∧
    originMatches "app.example.com" "https://app.example.com" = false ∧
    (computeCorsHeaders ⟨some "*.example.com,app.example.com", "k", none, none, none⟩
        (some "https://app.example.com")).allowOrigin = none := by
  decide

/-- C4 amended: the matcher is an anchored, case-sensitive full-string
match of the whole `Origin` header value, with `*` standing for one
alphanumeric-and-hyphen segment; `https://app.example.com` matches the
scheme-carrying patterns `https://*.example.com` and
`https://app.example.com` and is echoed back, while `https://evil.com`
matches none of the patterns and the response carries no
`Access-Control-Allow-Origin` header. -/
theorem cors_origin_matching_examples :
    originMatches "https://*.example.com" "https://app.example.com" = true ∧
    originMatches "https://app.example.com" "https://app.example.com" = true ∧
    originMatches "https://*.example.com" "https://evil.com" = false ∧
    originMatches "https://app.example.com" "https://evil.com" = false ∧
    originMatches "https://*.example.com" "https://a.b.example.com" = false ∧
    originMatches "https://*.example.com" "xhttps://a.example.com" = false ∧
    originMatches "https://*.example.com" "https://a.example.comx" = false ∧
    originMatches "https://APP.example.com" "https://app.example.com" = false ∧
    (computeCorsHeaders
        ⟨some "https://*.example.com,https://app.example.com", "k", none, none, none⟩
        (some "https://app.example.com")).allowOrigin = some "https://app.example.com" ∧
    (computeCorsHeaders
        ⟨some "https://*.example.com,https://app.example.com", "k", none, none, none⟩
        (some "https://evil.com")).allowOrigin = none := by
  decide

/-- C5: for every admitted non-upgrade request, the outbound upstream
host comes only from the inbound path and the `cluster` query parameter
(default "mainnet"): path exactly "/" routes to the cluster-specific
host, any other path routes to the fixed secondary API host with the
inbound path preserved as-is. -/
theorem routing_by_path_and_cluster (req : Request) (env : Env)
    (h : jsTruthyStr req.upgradeHeader = false) :
    handleRequest req env =
      Dispatch.proxied
        ("https://" ++ upstreamHost req.pathname (clusterOf req) ++ req.pathname
          ++ "?api-key=" ++ env.HELIUS_API_KEY ++ searchSuffix req.search)
        req.method (jsBody req.bodyText) ∧
    clusterOf req = jsOrStr req.clusterParam "mainnet" ∧
    upstreamHost "/" (clusterOf req) = clusterOf req ++ ".helius-rpc.com" ∧
    (req.pathname ≠ "/" →
      upstreamHost req.pathname (clusterOf req) = "api.helius.xyz") := by
  have hws : (req.upgradeHeader == some "websocket") = false := by
    cases hh : req.upgradeHeader with
    | none => rfl
    | some s =>
      rw [hh] at h
      have hs : s = "" := by simpa [jsTruthyStr] using h
      subst hs
      decide
  refine ⟨?_, rfl, by simp [upstreamHost], fun hp => by simp [upstreamHost, hp]⟩
  unfold handleRequest proxyUrl
  simp [h, hws]

/-- C5 witness: a devnet root-path request goes to the devnet host and a
non-root path goes to the fixed secondary host. -/
theorem routing_by_path_and_cluster_witness :
    handleRequest ⟨"POST", "/", "?cluster=devnet", some "devnet", none, none, none, "payload"⟩
        ⟨none, "KEY", none, none, none⟩ =
      Dispatch.proxied
        ("https://" ++ upstreamHost "/" (clusterOf ⟨"POST", "/", "?cluster=devnet", some "devnet", none, none, none, "payload"⟩)
          ++ "/" ++ "?api-key=" ++ "KEY" ++ searchSuffix "?cluster=devnet")
        "POST" (jsBody "payload") ∧
    upstreamHost "/" "devnet" = "devnet.helius-rpc.com" ∧
    upstreamHost "/v0/transactions" "devnet" = "api.helius.xyz" := by
  refine ⟨?_, by decide, by decide⟩
  exact (routing_by_path_and_cluster
    ⟨"POST", "/", "?cluster=devnet", some "devnet", none, none, none, "payload"⟩
    ⟨none, "KEY", none, none, none⟩ (by decide)).1

/-- C6 counterexample: an Upgrade header whose value is the empty string
is falsy in the dispatch condition, so the request is not forwarded as a
passthrough but rebuilt as a regular proxied request. -/
theorem upgrade_empty_value_cex :
    (⟨"GET", "/", "", none, none, none, some "", ""⟩ : Request).upgradeHeader = some "" ∧
    handleRequest ⟨"GET", "/", "", none, none, none, some "", ""⟩
        ⟨none, "KEY", none, none, none⟩ ≠
      Dispatch.websocket (wsUrl "mainnet" "KEY")
        ⟨"GET", "/", "", none, none, none, some "", ""⟩ ∧
    handleRequest ⟨"GET", "/", "", none, none, none, some "", ""⟩
        ⟨none, "KEY", none, none, none⟩ =
      Dispatch.proxied "https://mainnet.helius-rpc.com/?api-key=KEY" "GET" none := by
  decide

/-- C6 amended: for every request carrying a non-empty Upgrade header
value — any such value, the literal "websocket" included, treated
identically — the dispatcher forwards the original request unmodified to
the cluster host with no path beyond the root, the credential attached
as an `api-key` query parameter. -/
theorem upgrade_passthrough (req : Request) (env : Env)
    (h : jsTruthyStr req.upgradeHeader = true) :
    handleRequest req env =
      Dispatch.websocket (wsUrl (clusterOf req) env.HELIUS_API_KEY) req ∧
    wsUrl (clusterOf req) env.HELIUS_API_KEY =
      "https://" ++ clusterOf req ++ ".helius-rpc.com/?api-key=" ++ env.HELIUS_API_KEY := by
  constructor
  · unfold handleRequest
    simp [h]
  · rfl

/-- C6 amended witness: an arbitrary non-empty Upgrade value triggers
the passthrough. -/
theorem upgrade_passthrough_witness :
    handleRequest ⟨"GET", "/", "", none, none, none, some "h2c", ""⟩
        ⟨none, "KEY", none, none, none⟩ =
      Dispatch.websocket
        (wsUrl (clusterOf ⟨"GET", "/", "", none, none, none, some "h2c", ""⟩) "KEY")
        ⟨"GET", "/", "", none, none, none, some "h2c", ""⟩ :=
  (upgrade_passthrough ⟨"GET", "/", "", none, none, none, some "h2c", ""⟩
    ⟨none, "KEY", none, none, none⟩ (by decide)).1

/-- C7: the relayed response carries the upstream status code and body
unmodified, and its headers are exactly the computed CORS headers: two
upstream responses that differ only in their headers relay identically,
so every upstream header is discarded. -/
theorem relay_keeps_status_body_replaces_headers (r₁ r₂ : UpstreamResponse)
    (cors : CorsHeaders) (hs : r₁.status = r₂.status) (hb : r₁.body = r₂.body) :
    relayResponse r₁ cors = relayResponse r₂ cors ∧
    (relayResponse r₁ cors).status = r₁.status ∧
    (relayResponse r₁ cors).body = r₁.body ∧
    (relayResponse r₁ cors).headers = cors := by
  refine ⟨?_, rfl, rfl, rfl⟩
  unfold relayResponse
  rw [hs, hb]

/-- C7 witness: an upstream content-type header is dropped from the
relayed response. -/
theorem relay_keeps_status_body_replaces_headers_witness :
    relayResponse ⟨200, [("Content-Type", "text/html")], "ok"⟩
        ⟨"GET, HEAD, POST, PUT, OPTIONS", "*", some "*"⟩ =
      relayResponse ⟨200, [], "ok"⟩ ⟨"GET, HEAD, POST, PUT, OPTIONS", "*", some "*"⟩ ∧
    (relayResponse ⟨200, [("Content-Type", "text/html")], "ok"⟩
        ⟨"GET, HEAD, POST, PUT, OPTIONS", "*", some "*"⟩).status = 200 ∧
    (relayResponse ⟨200, [("Content-Type", "text/html")], "ok"⟩
        ⟨"GET, HEAD, POST, PUT, OPTIONS", "*", some "*"⟩).body = "ok" ∧
    (relayResponse ⟨200, [("Content-Type", "text/html")], "ok"⟩
        ⟨"GET, HEAD, POST, PUT, OPTIONS", "*", some "*"⟩).headers =
      ⟨"GET, HEAD, POST, PUT, OPTIONS", "*", some "*"⟩ :=
  relay_keeps_status_body_replaces_headers
    ⟨200, [("Content-Type", "text/html")], "ok"⟩ ⟨200, [], "ok"⟩
    ⟨"GET, HEAD, POST, PUT, OPTIONS", "*", some "*"⟩ rfl rfl

/-- C8 counterexample: with a configured window of 120 seconds, the
counter is still written with the fixed 60 second TTL, which is shorter
than the window, so the fixed TTL is not at least as long as every
configured window. -/
theorem ttl_shorter_than_window_cex :
    timeWindowOf ⟨none, "KEY", none, some "120", none⟩ = 120 ∧
    (fetchHandler ⟨"POST", "/", "", none, none, some "1.2.3.4", none, "payload"⟩
        ⟨none, "KEY", none, some "120", none⟩ 0 (fun _ => none)).storePuts =
      [{ key := "1.2.3.4:0", value := "1", expirationTtl := 60 }] ∧
    (60 : Int) < timeWindowOf ⟨none, "KEY", none, some "120", none⟩ := by
  decide

/-- C8 amended: every counter write uses the one fixed TTL of 60
seconds, independent of the configured window length; that TTL covers
the window only when the configured window length is at most 60
seconds. -/
theorem put_ttl_fixed_sixty (req : Request) (env : Env) (nowMs : Nat)
    (kv : String → Option String) (p : StorePut)
    (hp : p ∈ (fetchHandler req env nowMs kv).storePuts) :
    p.expirationTtl = 60 ∧
    (timeWindowOf env ≤ 60 → timeWindowOf env ≤ (p.expirationTtl : Int)) := by
  have httl : p.expirationTtl = 60 := by
    unfold fetchHandler at hp
    by_cases h1 : req.method == "OPTIONS"
    · simp [h1] at hp
    · simp only [h1, Bool.false_eq_true, if_false] at hp
      by_cases h2 : (whitelistedIpsOf env).contains (clientIdentifierOf req) = true
      · rw [if_pos h2] at hp
        simp at hp
      · rw [if_neg h2] at hp
        by_cases h3 : jsGe (jsCount (kv (windowKeyOf (clientIdentifierOf req) nowMs
            (timeWindowOf env)))) (maxRequestsOf env) = true
        · rw [if_pos h3] at hp
          simp at hp
        · rw [if_neg h3] at hp
          simp only [List.mem_singleton] at hp
          subst hp
          rfl
  refine ⟨httl, fun hw => ?_⟩
  rw [httl]
  exact le_trans hw (by norm_num)

/-- C8 amended witness: an admitted request writes its counter with TTL
60, covering the default 1 second window. -/
theorem put_ttl_fixed_sixty_witness :
    ({ key := "1.2.3.4:0", value := "1", expirationTtl := 60 } : StorePut).expirationTtl = 60 ∧
    (timeWindowOf ⟨none, "KEY", none, none, none⟩ ≤ 60 →
      timeWindowOf ⟨none, "KEY", none, none, none⟩ ≤
        (({ key := "1.2.3.4:0", value := "1", expirationTtl := 60 } : StorePut).expirationTtl : Int)) :=
  put_ttl_fixed_sixty ⟨"POST", "/", "", none, none, some "1.2.3.4", none, "payload"⟩
    ⟨none, "KEY", none, none, none⟩ 0 (fun _ => none)
    { key := "1.2.3.4:0", value := "1", expirationTtl := 60 } (by decide)

end HeliusProxy
